import Mathlib

/-!
Shallow embedding of the export transformation of the timesheet
application (files timesheet_app.py, exports_legacy.py,
supabase_helpers.py).  Python floats are modelled as rationals (`Rat`);
a Python exception is modelled as `none` in an `Option` result.
-/

/-- A calendar date (no time component), as `datetime.date`. -/
structure CalDate where
  year : Nat
  month : Nat
  day : Nat
deriving DecidableEq, Repr

/-- Days since 1970-01-01 of a civil date (Howard Hinnant's
`days_from_civil` algorithm, the standard proleptic-Gregorian day count
used by `datetime.date.toordinal` up to an offset). -/
def daysFromCivil (dt : CalDate) : Int :=
  let y : Int := if dt.month ≤ 2 then (dt.year : Int) - 1 else (dt.year : Int)
  let m : Int := (dt.month : Int)
  let d : Int := (dt.day : Int)
  let era : Int := (if 0 ≤ y then y else y - 399) / 400
  let yoe : Int := y - era * 400
  let doy : Int := (153 * (if 2 < m then m - 3 else m + 9) + 2) / 5 + d - 1
  let doe : Int := yoe * 365 + yoe / 4 - yoe / 100 + doy
  era * 146097 + doe - 719468

/-- `datetime.date.weekday()`: Monday = 0 … Sunday = 6.
1970-01-01 (day 0 of `daysFromCivil`) was a Thursday (= 3). -/
def pyWeekday (dt : CalDate) : Int :=
  (daysFromCivil dt + 3) % 7

/-- `hours_split_by_ot(date_str, hours_val)` from timesheet_app.py
(lines 134-145).  The date string is modelled as an already-parsed
valid date; `float(hours_val or 0.0)` is the identity on a rational
(`q or 0.0` is `q` for nonzero `q` and `0.0` otherwise, both equal to
`q`).  `weekday >= 5` means Saturday or Sunday. -/
def hours_split_by_ot (dt : CalDate) (hoursVal : Rat) : Rat × Rat :=
  if 5 ≤ pyWeekday dt then (0, hoursVal)
  else if hoursVal ≤ 8 then (hoursVal, 0)
  else (8, hoursVal - 8)

/-- The zero-mask fallback application from timesheet_app.py
(lines 530-535), per record: the derived split replaces the stored
`RT Hours` / `OT Hours` only when both stored values are zero. -/
def applyHoursFallback (dt : CalDate) (totalHours rtH otH : Rat) : Rat × Rat :=
  if rtH = 0 ∧ otH = 0 then hours_split_by_ot dt totalHours else (rtH, otH)

/-- C4: the regular/overtime fallback derivation is a pure function of
(date, total hours): on Saturday or Sunday it yields (0, total),
otherwise (min total 8, max (total - 8) 0); and it is applied only to
records whose explicit rt and ot hours are both zero, never overriding
an already-nonzero explicit split. -/
theorem C4_rt_ot_fallback (dt : CalDate) (total rtH otH : Rat) :
    (5 ≤ pyWeekday dt → hours_split_by_ot dt total = (0, total)) ∧
    (pyWeekday dt < 5 → hours_split_by_ot dt total = (min total 8, max (total - 8) 0)) ∧
    (¬ (rtH = 0 ∧ otH = 0) → applyHoursFallback dt total rtH otH = (rtH, otH)) ∧
    (rtH = 0 → otH = 0 → applyHoursFallback dt total rtH otH = hours_split_by_ot dt total) := by
  refine ⟨?_, ?_, ?_, ?_⟩
  · intro hwk
    simp [hours_split_by_ot, hwk]
  · intro hwk
    have hwk' : ¬ 5 ≤ pyWeekday dt := by omega
    by_cases hle : total ≤ 8
    · have h1 : min total 8 = total := min_eq_left hle
      have h2 : max (total - 8) 0 = 0 := max_eq_right (by linarith)
      simp [hours_split_by_ot, hwk', hle, h1, h2]
    · have h1 : min total 8 = 8 := min_eq_right (le_of_not_le hle)
      have h2 : max (total - 8) 0 = total - 8 := max_eq_left (by linarith [lt_of_not_le hle])
      simp [hours_split_by_ot, hwk', hle, h1, h2]
  · intro hnz
    simp [applyHoursFallback, hnz]
  · intro h1 h2
    simp [applyHoursFallback, h1, h2]

/-- Witness for C4 at concrete inputs: 2025-09-20 was a Saturday
(10 hours go entirely to overtime), 2025-09-16 a Tuesday (10 hours
split 8/2), and an explicit nonzero split (3, 0) is left alone. -/
theorem C4_rt_ot_fallback_witness :
    hours_split_by_ot ⟨2025, 9, 20⟩ 10 = (0, 10) ∧
    hours_split_by_ot ⟨2025, 9, 16⟩ 10 = (min 10 8, max (10 - 8) 0) ∧
    applyHoursFallback ⟨2025, 9, 16⟩ 10 3 0 = (3, 0) :=
  ⟨(C4_rt_ot_fallback ⟨2025, 9, 20⟩ 10 0 0).1 (by decide),
   (C4_rt_ot_fallback ⟨2025, 9, 16⟩ 10 0 0).2.1 (by decide),
   (C4_rt_ot_fallback ⟨2025, 9, 16⟩ 10 3 0).2.2.1 (by decide)⟩

/-- C10: for every date and nonnegative total, the fallback split
returns nonnegative parts that sum back to the total: the derivation
never loses or duplicates hours. -/
theorem C10_split_conserves (dt : CalDate) (total : Rat) (h : 0 ≤ total) :
    0 ≤ (hours_split_by_ot dt total).1 ∧ 0 ≤ (hours_split_by_ot dt total).2 ∧
    (hours_split_by_ot dt total).1 + (hours_split_by_ot dt total).2 = total := by
  unfold hours_split_by_ot
  split_ifs with h1 h2
  · exact ⟨le_refl 0, h, by ring⟩
  · exact ⟨h, le_refl 0, by ring⟩
  · refine ⟨by norm_num, ?_, by ring⟩
    show (0 : Rat) ≤ total - 8
    linarith [lt_of_not_le h2]

/-- Witness for C10 at a concrete date and total. -/
theorem C10_split_conserves_witness :
    0 ≤ (hours_split_by_ot ⟨2025, 9, 16⟩ 10).1 ∧
    0 ≤ (hours_split_by_ot ⟨2025, 9, 16⟩ 10).2 ∧
    (hours_split_by_ot ⟨2025, 9, 16⟩ 10).1 + (hours_split_by_ot ⟨2025, 9, 16⟩ 10).2 = 10 :=
  C10_split_conserves ⟨2025, 9, 16⟩ 10 (by decide)

/-- Zero-padding to two digits, as strftime renders month and day. -/
def pad2 (n : Nat) : String :=
  if n < 10 then "0" ++ toString n else toString n

/-- Zero-padding to four digits, as strftime renders the year. -/
def pad4 (n : Nat) : String :=
  if n < 10 then "000" ++ toString n
  else if n < 100 then "00" ++ toString n
  else if n < 1000 then "0" ++ toString n
  else toString n

/-- A date rendered with strftime pattern month-day-year (mm-dd-yyyy). -/
def renderMDY (dt : CalDate) : String :=
  pad2 dt.month ++ "-" ++ pad2 dt.day ++ "-" ++ pad4 dt.year

/-- A date rendered with strftime pattern year-month-day (yyyy-mm-dd). -/
def renderYMD (dt : CalDate) : String :=
  pad4 dt.year ++ "-" ++ pad2 dt.month ++ "-" ++ pad2 dt.day

/-- The per-job export filename, built identically at
exports_legacy.py line 66 and timesheet_app.py line 1019: the date as
mm-dd-yyyy, space hyphen space, the job number, space hyphen space,
then the literal tail. -/
def perJobFileName (dt : CalDate) (job : String) : String :=
  renderMDY dt ++ " - " ++ job ++ " - Daily Time Import.xlsx"

/-- The whole-day summary filename built at timesheet_app.py line 815.
The separator there is space EN-DASH (U+2013) space, not an ASCII
hyphen. -/
def dailyTimeOutName (dt : CalDate) : String :=
  renderMDY dt ++ " – Daily Time.xlsx"

/-- The whitespace characters Python strips from the input values seen
here (space, tab, newline, carriage return). -/
def isSpaceChar (c : Char) : Bool :=
  c == ' ' || c == '\t' || c == '\n' || c == '\r'

/-- Python str.strip: drop leading and trailing whitespace.  Defined on
the character list so it evaluates by kernel reduction. -/
def pyStrip (s : String) : String :=
  String.mk (((s.data.dropWhile isSpaceChar).reverse.dropWhile isSpaceChar).reverse)

/-- Python str.upper for the ASCII content seen here. -/
def pyUpper (s : String) : String :=
  String.mk (s.data.map Char.toUpper)

/-- Python str.isdigit for ASCII content: nonempty and every character
a decimal digit. -/
def isDigitStr (s : String) : Bool :=
  !s.data.isEmpty && s.data.all Char.isDigit

/-- Python int() of an all-digit string. -/
def digitsToNat (s : String) : Nat :=
  s.data.foldl (fun n c => 10 * n + (c.toNat - 48)) 0

/-- Python format 03d for a nonnegative integer: decimal digits,
zero-padded on the left to a minimum width of three. -/
def fmt03d (n : Nat) : String :=
  if n < 10 then "00" ++ toString n
  else if n < 100 then "0" ++ toString n
  else toString n

/-- _pad_job_area from timesheet_app.py (lines 114-121): strip the
value; if the stripped value is all digits, render its integer value
zero-padded to at least three digits (int never raises on a digit
string, so the except branch is dead); otherwise return the stripped
value. -/
def _pad_job_area (v : String) : String :=
  let s := pyStrip v
  if isDigitStr s then fmt03d (digitsToNat s) else s

/-- _pad3 from exports_legacy.py (lines 12-14).  On string inputs
`str(x or "")` only maps the empty string to itself, so the body
coincides with `_pad_job_area`. -/
def _pad3 (x : String) : String :=
  let s := pyStrip x
  if isDigitStr s then fmt03d (digitsToNat s) else s

/-- Counterexample for C9: the claim says non-numeric values pass
through unchanged, but both padding helpers strip surrounding
whitespace, so the non-numeric input " A7 " comes out "A7", changed. -/
theorem C9_pad_counterexample :
    isDigitStr " A7 " = false ∧
    _pad_job_area " A7 " = "A7" ∧ _pad_job_area " A7 " ≠ " A7 " ∧
    _pad3 " A7 " ≠ " A7 " := by decide

/-- C9 amended: the canonicalization trims surrounding whitespace
first; a trimmed all-digit value is rendered as its integer value
zero-padded to at least three digits, and any other value passes
through trimmed (hence unchanged when it carries no surrounding
whitespace).  The spec's examples hold as stated. -/
theorem C9_pad_job_area_amended (s : String) :
    _pad_job_area "7" = "007" ∧ _pad_job_area "12" = "012" ∧
    _pad_job_area "A7" = "A7" ∧
    _pad3 s = _pad_job_area s ∧
    (isDigitStr (pyStrip s) = true → _pad_job_area s = fmt03d (digitsToNat (pyStrip s))) ∧
    (isDigitStr (pyStrip s) = false → _pad_job_area s = (pyStrip s)) := by
  refine ⟨by decide, by decide, by decide, rfl, ?_, ?_⟩
  · intro h
    simp [_pad_job_area, h]
  · intro h
    simp [_pad_job_area, h]

/-- Witness for C9 amended at concrete inputs. -/
theorem C9_pad_job_area_amended_witness :
    _pad3 "0012" = _pad_job_area "0012" ∧
    _pad_job_area "0012" = fmt03d (digitsToNat "0012") ∧
    _pad_job_area " A7 " = pyStrip " A7 " :=
  ⟨(C9_pad_job_area_amended "0012").2.2.2.1,
   (C9_pad_job_area_amended "0012").2.2.2.2.1 (by decide),
   (C9_pad_job_area_amended " A7 ").2.2.2.2.2 (by decide)⟩

/-- Counterexample for C8: the whole-day summary filename uses an
EN-DASH (U+2013) separator, not the ASCII hyphen the claim states. -/
theorem C8_daily_time_name_counterexample :
    dailyTimeOutName ⟨2025, 9, 19⟩ = "09-19-2025 – Daily Time.xlsx" ∧
    dailyTimeOutName ⟨2025, 9, 19⟩ ≠ "09-19-2025 - Daily Time.xlsx" := by decide

/-- C8 amended: for every export date the whole-day summary filename is
exactly the date rendered mm-dd-yyyy, a space EN-DASH (U+2013) space
separator, and the literal "Daily Time.xlsx". -/
theorem C8_daily_time_name_amended (y m d : Nat) :
    dailyTimeOutName ⟨y, m, d⟩ =
      pad2 m ++ "-" ++ pad2 d ++ "-" ++ pad4 y ++ " – Daily Time.xlsx" := rfl

/-- A Python value as stored in an hours cell: missing (None), a
number, or a string. -/
inductive PyVal where
  | pynone
  | num (q : Rat)
  | str (s : String)
deriving DecidableEq, Repr

/-- Python truthiness for the values modelled. -/
def PyVal.truthy : PyVal → Bool
  | .pynone => false
  | .num q => q != 0
  | .str s => !s.data.isEmpty

/-- Python `a or b`. -/
def pyOr (a b : PyVal) : PyVal :=
  if a.truthy then a else b

/-- Python float() applied to a string: optional sign, digits, and an
optional fractional part, with surrounding whitespace ignored (the
exponent and special forms, unused by this data, are not modelled);
anything else raises, modelled as none. -/
def parseFloat? (s : String) : Option Rat :=
  let t := (pyStrip s).data
  let signed : Rat × List Char :=
    match t with
    | '-' :: rest => (-1, rest)
    | '+' :: rest => (1, rest)
    | cs => (1, cs)
  let sign := signed.1
  let cs := signed.2
  let ip := cs.takeWhile Char.isDigit
  let rest := cs.dropWhile Char.isDigit
  match rest with
  | [] =>
      if ip.isEmpty then none
      else some (sign * (digitsToNat (String.mk ip) : Rat))
  | '.' :: frac =>
      if frac.all Char.isDigit && !(ip.isEmpty && frac.isEmpty) then
        some (sign * ((digitsToNat (String.mk ip) : Rat) +
          (digitsToNat (String.mk frac) : Rat) / (10 : Rat) ^ frac.length))
      else none
  | _ => none

/-- Python float(v): a number passes through, a string is parsed
(none when unparseable, modelling the ValueError), and None raises a
TypeError, also none. -/
def pyFloat (v : PyVal) : Option Rat :=
  match v with
  | .pynone => none
  | .num q => some q
  | .str s => parseFloat? s

/-- The hours coercion float(x or 0.0) at timesheet_app.py lines
862-863 and exports_legacy.py lines 19-20: a falsy value (None, 0,
empty string) is first replaced by 0.0; none models the exception
float() raises on a truthy unparseable string. -/
def coerceHours (v : PyVal) : Option Rat :=
  pyFloat (pyOr v (PyVal.num 0))

/-- The ingestion normalization of add_time_rows (supabase_helpers.py
lines 33-37) for a present, non-None hours value: float(v), with any
exception caught and the value coerced to 0.0. -/
def normalizeHour (v : PyVal) : Rat :=
  match pyFloat v with
  | some q => q
  | none => 0

/-- _clean_blank from timesheet_app.py (lines 123-132) on a string
value (the pd.isna branch concerns missing cells, which reach this
model as the empty string): strip; a value spelling NAN in any case
becomes empty; optionally upper-case. -/
def _clean_blank (val : String) (upper : Bool) : String :=
  let s := pyStrip val
  if pyUpper s == "NAN" then ""
  else if upper then pyUpper s else s

/-- Python substring containment: needle in hay. -/
def strContains (hay needle : String) : Bool :=
  decide (List.IsInfix needle.data hay.data)

/-- The subsistence test at timesheet_app.py line 889:
"SUBSIST" in pv.upper(), or pv == "261", or "261" in pv. -/
def subsistSignal (pv : String) : Bool :=
  strContains (pyUpper pv) "SUBSIST" || pv == "261" || strContains pv "261"

/-- One export line item: the 14 columns of the TimeEntries sheet. -/
structure ExportRow where
  date : String
  timeRecordType : String
  personNumber : String
  employeeName : String
  overrideTradeClass : String
  postToPayroll : String
  costCodePhase : String
  jobArea : String
  scopeChange : String
  payCode : String
  hours : Rat
  nightShift : String
  premiumRate : String
  comments : String
deriving DecidableEq, Repr

/-- The configured pay-code map; paycode_map.get supplies the defaults
211 / 212 / 261 for missing keys. -/
structure PaycodeMap where
  reg : Option String
  ot : Option String
  subsistence : Option String
deriving DecidableEq, Repr

/-- paycode_map.get("REG", "211"). -/
def PaycodeMap.regCode (pm : PaycodeMap) : String := pm.reg.getD "211"

/-- paycode_map.get("OT", "212"). -/
def PaycodeMap.otCode (pm : PaycodeMap) : String := pm.ot.getD "212"

/-- paycode_map.get("SUBSISTENCE", "261"). -/
def PaycodeMap.subsCode (pm : PaycodeMap) : String := pm.subsistence.getD "261"

/-- One stored time-entry record, in the post-merge view the
build_export_rows loop reads (the employee-lookup columns already
joined in; the two hours cells keep their raw Python values). -/
structure TimeEntry where
  date : CalDate
  jobNumber : String
  jobArea : String
  name : String
  classType : String
  tradeClass : String
  employeeNumber : String
  rtHours : PyVal
  otHours : PyVal
  nightShift : String
  premiumRate : String
  comments : String
  timeRecordType : String
deriving DecidableEq, Repr

/-- The base dict of the build_export_rows loop (timesheet_app.py
lines 864-880): the common column values of one record, with Pay Code
empty and Hours 0 until a copy overwrites them. -/
def entryBase (e : TimeEntry) : ExportRow :=
  { date := renderYMD e.date
    timeRecordType := e.timeRecordType
    personNumber := e.employeeNumber
    employeeName := e.name
    overrideTradeClass := e.tradeClass
    postToPayroll := "Y"
    costCodePhase := e.classType
    jobArea := _pad_job_area e.jobArea
    scopeChange := ""
    payCode := ""
    hours := 0
    nightShift := _clean_blank e.nightShift true
    premiumRate := _clean_blank e.premiumRate false
    comments := "" }

/-- The loop body of build_export_rows (timesheet_app.py lines
860-891) for one merged record: coerce the two hours cells (none
models the float() exception), build the base line, then emit a REG
line when rt is positive, an OT line when ot is positive, and a
SUBSISTENCE line with 1.0 hours when the cleaned premium value
signals subsistence. -/
def expandEntry (pm : PaycodeMap) (e : TimeEntry) : Option (List ExportRow) :=
  match coerceHours e.rtHours, coerceHours e.otHours with
  | some regH, some otH =>
    some ((if 0 < regH then [{ entryBase e with payCode := pm.regCode, hours := regH }] else []) ++
          (if 0 < otH then [{ entryBase e with payCode := pm.otCode, hours := otH }] else []) ++
          (if subsistSignal (_clean_blank e.premiumRate false) then
            [{ entryBase e with payCode := pm.subsCode, hours := 1 }] else []))
  | _, _ => none

/-- build_export_rows (timesheet_app.py lines 845-894): the flat list
of line items of all records, in record order; none when a float()
coercion raises. -/
def build_export_rows (pm : PaycodeMap) (entries : List TimeEntry) : Option (List ExportRow) :=
  (entries.mapM (expandEntry pm)).map List.flatten

/-- One Supabase time_entries row, as _map_hours_rows reads it. -/
structure LegacyEntry where
  date : CalDate
  jobNumber : String
  employeeNumber : String
  name : String
  tradeClass : String
  classType : String
  jobArea : String
  rtHours : PyVal
  otHours : PyVal
  premiumRate : String
  comments : String
deriving DecidableEq, Repr

/-- The base dict of the _map_hours_rows loop (exports_legacy.py
lines 21-36). -/
def legacyBase (e : LegacyEntry) : ExportRow :=
  { date := renderYMD e.date
    timeRecordType := ""
    personNumber := e.employeeNumber
    employeeName := e.name
    overrideTradeClass := e.tradeClass
    postToPayroll := "Y"
    costCodePhase := e.classType
    jobArea := _pad3 e.jobArea
    scopeChange := ""
    payCode := ""
    hours := 0
    nightShift := ""
    premiumRate := e.premiumRate
    comments := e.comments }

/-- The loop body of _map_hours_rows (exports_legacy.py lines 18-40)
for one row: coerce hours, build the base line (no cleaning and no
subsistence test in this variant), then emit a REG line and an OT
line for positive hours. -/
def mapHoursRow (pm : PaycodeMap) (e : LegacyEntry) : Option (List ExportRow) :=
  match coerceHours e.rtHours, coerceHours e.otHours with
  | some regH, some otH =>
    some ((if 0 < regH then [{ legacyBase e with payCode := pm.regCode, hours := regH }] else []) ++
          (if 0 < otH then [{ legacyBase e with payCode := pm.otCode, hours := otH }] else []))
  | _, _ => none

/-- _map_hours_rows (exports_legacy.py lines 16-41): the flat list of
line items of the rows of one job, in row order. -/
def _map_hours_rows (pm : PaycodeMap) (es : List LegacyEntry) : Option (List ExportRow) :=
  (es.mapM (mapHoursRow pm)).map List.flatten

/-- Python sorted() on a list of strings (code-point lexicographic). -/
def sortStrings (l : List String) : List String :=
  l.insertionSort (· ≤ ·)

/-- The job list of export_all_jobs_for_date (timesheet_app.py line
1007): sorted unique stripped job numbers. -/
def appJobs (es : List TimeEntry) : List String :=
  sortStrings (es.map (fun e => pyStrip e.jobNumber)).dedup

/-- The job list of build_per_job_exports (exports_legacy.py line 54):
sorted unique job numbers (no stripping in this variant). -/
def legacyJobs (es : List LegacyEntry) : List String :=
  sortStrings (es.map (fun e => e.jobNumber)).dedup

/-- The per-job loop of export_all_jobs_for_date (timesheet_app.py
lines 1016-1026): for each job in turn, build its line items with the
supplied row builder (none models a float() exception aborting the
run) and append the document (filename, line items) unconditionally —
write_formatted runs for every job, even with zero line items. -/
def perJobLoop (f : String → Option (List ExportRow)) (d : CalDate) :
    List String → Option (List (String × List ExportRow))
  | [] => some []
  | job :: rest =>
    match f job, perJobLoop f d rest with
    | some rows, some acc => some ((perJobFileName d job, rows) :: acc)
    | _, _ => none

/-- The per-job loop of build_per_job_exports (exports_legacy.py
lines 54-67): as `perJobLoop`, except a job whose line-item list is
empty is skipped (the continue at line 58) and contributes no
document. -/
def legacyJobLoop (f : String → Option (List ExportRow)) (d : CalDate) :
    List String → Option (List (String × List ExportRow))
  | [] => some []
  | job :: rest =>
    match f job, legacyJobLoop f d rest with
    | some rows, some acc =>
        if rows.isEmpty then some acc
        else some ((perJobFileName d job, rows) :: acc)
    | _, _ => none

/-- build_per_job_exports (exports_legacy.py lines 43-68), logical
content: the legacy loop over the sorted distinct job numbers, each
job selecting its own rows (an empty input yields the empty job list,
matching the early return of the empty dict). -/
def build_per_job_exports (pm : PaycodeMap) (d : CalDate) (es : List LegacyEntry) :
    Option (List (String × List ExportRow)) :=
  legacyJobLoop
    (fun job => _map_hours_rows pm (es.filter (fun e => e.jobNumber == job)))
    d (legacyJobs es)

/-- export_all_jobs_for_date (timesheet_app.py lines 1000-1028),
logical content of the per-job loop: for each distinct stripped job
number in sorted order, the line items built by build_export_rows and
the per-job filename.  A document is produced for every job, even one
whose line-item list is empty: write_formatted runs unconditionally
and the log then records status Empty, "No matching rows; created
headers only." -/
def export_all_jobs_for_date (pm : PaycodeMap) (d : CalDate) (es : List TimeEntry) :
    Option (List (String × List ExportRow)) :=
  perJobLoop
    (fun job => build_export_rows pm (es.filter (fun e => pyStrip e.jobNumber == job)))
    d (appJobs es)

/-- The explicit line list the build_export_rows loop body yields for
one record once both hours cells coerce. -/
theorem expandEntry_eq (pm : PaycodeMap) (e : TimeEntry) (regH otH : Rat)
    (h1 : coerceHours e.rtHours = some regH)
    (h2 : coerceHours e.otHours = some otH) :
    expandEntry pm e = some
      ((if 0 < regH then [{ entryBase e with payCode := pm.regCode, hours := regH }] else []) ++
       (if 0 < otH then [{ entryBase e with payCode := pm.otCode, hours := otH }] else []) ++
       (if subsistSignal (_clean_blank e.premiumRate false) then
         [{ entryBase e with payCode := pm.subsCode, hours := 1 }] else [])) := by
  unfold expandEntry
  rw [h1, h2]

/-- The explicit line list the _map_hours_rows loop body yields for
one row once both hours cells coerce. -/
theorem mapHoursRow_eq (pm : PaycodeMap) (e : LegacyEntry) (regH otH : Rat)
    (h1 : coerceHours e.rtHours = some regH)
    (h2 : coerceHours e.otHours = some otH) :
    mapHoursRow pm e = some
      ((if 0 < regH then [{ legacyBase e with payCode := pm.regCode, hours := regH }] else []) ++
       (if 0 < otH then [{ legacyBase e with payCode := pm.otCode, hours := otH }] else [])) := by
  unfold mapHoursRow
  rw [h1, h2]

/-- countP over a conditional singleton. -/
theorem countP_ite_singleton (c : Prop) [Decidable c] (r : ExportRow) (p : ExportRow → Bool) :
    (if c then [r] else []).countP p = if c then (if p r then 1 else 0) else 0 := by
  split_ifs with h h2 <;> simp_all [List.countP_cons]

/-- membership in a conditional singleton. -/
theorem mem_ite_singleton (c : Prop) [Decidable c] (r x : ExportRow) :
    x ∈ (if c then [r] else []) ↔ c ∧ x = r := by
  split_ifs with h <;> simp [h]

/-- C1: for every record whose hours cells coerce, the expansion emits
exactly one REG line, with hours equal to rt hours, iff rt hours is
positive; exactly one OT line, with hours equal to ot hours, iff ot
hours is positive; and a record with both hours zero and no
subsistence signal contributes zero output lines.  Stated for the
build_export_rows loop body and for the legacy _map_hours_rows loop
body, under distinct configured pay codes. -/
theorem C1_expansion_lines (pm : PaycodeMap) (e : TimeEntry) (le : LegacyEntry)
    (regH otH lregH lotH : Rat) (rows lrows : List ExportRow)
    (h1 : coerceHours e.rtHours = some regH)
    (h2 : coerceHours e.otHours = some otH)
    (h3 : expandEntry pm e = some rows)
    (h4 : coerceHours le.rtHours = some lregH)
    (h5 : coerceHours le.otHours = some lotH)
    (h6 : mapHoursRow pm le = some lrows)
    (hro : pm.regCode ≠ pm.otCode)
    (hrs : pm.regCode ≠ pm.subsCode)
    (hos : pm.otCode ≠ pm.subsCode) :
    (rows.countP (fun r => r.payCode == pm.regCode) = if 0 < regH then 1 else 0) ∧
    (∀ r ∈ rows, r.payCode = pm.regCode → r.hours = regH) ∧
    (rows.countP (fun r => r.payCode == pm.otCode) = if 0 < otH then 1 else 0) ∧
    (∀ r ∈ rows, r.payCode = pm.otCode → r.hours = otH) ∧
    (regH = 0 → otH = 0 →
      subsistSignal (_clean_blank e.premiumRate false) = false → rows = []) ∧
    (lrows.countP (fun r => r.payCode == pm.regCode) = if 0 < lregH then 1 else 0) ∧
    (∀ r ∈ lrows, r.payCode = pm.regCode → r.hours = lregH) ∧
    (lrows.countP (fun r => r.payCode == pm.otCode) = if 0 < lotH then 1 else 0) ∧
    (∀ r ∈ lrows, r.payCode = pm.otCode → r.hours = lotH) ∧
    (lregH = 0 → lotH = 0 → lrows = []) := by
  rw [expandEntry_eq pm e regH otH h1 h2, Option.some.injEq] at h3
  rw [mapHoursRow_eq pm le lregH lotH h4 h5, Option.some.injEq] at h6
  subst h3
  subst h6
  refine ⟨?_, ?_, ?_, ?_, ?_, ?_, ?_, ?_, ?_, ?_⟩
  · rw [List.countP_append, List.countP_append,
      countP_ite_singleton, countP_ite_singleton, countP_ite_singleton]
    simp [beq_iff_eq, Ne.symm hro, Ne.symm hrs]
  · intro r hr hpc
    simp only [List.mem_append, mem_ite_singleton] at hr
    rcases hr with (⟨h, rfl⟩ | ⟨h, rfl⟩) | ⟨h, rfl⟩
    · rfl
    · exact absurd hpc (Ne.symm hro)
    · exact absurd hpc (Ne.symm hrs)
  · rw [List.countP_append, List.countP_append,
      countP_ite_singleton, countP_ite_singleton, countP_ite_singleton]
    simp [beq_iff_eq, hro, Ne.symm hos]
  · intro r hr hpc
    simp only [List.mem_append, mem_ite_singleton] at hr
    rcases hr with (⟨h, rfl⟩ | ⟨h, rfl⟩) | ⟨h, rfl⟩
    · exact absurd hpc hro
    · rfl
    · exact absurd hpc (Ne.symm hos)
  · intro hz1 hz2 hsub
    simp [hz1, hz2, hsub]
  · rw [List.countP_append, countP_ite_singleton, countP_ite_singleton]
    simp [beq_iff_eq, Ne.symm hro]
  · intro r hr hpc
    simp only [List.mem_append, mem_ite_singleton] at hr
    rcases hr with ⟨h, rfl⟩ | ⟨h, rfl⟩
    · rfl
    · exact absurd hpc (Ne.symm hro)
  · rw [List.countP_append, countP_ite_singleton, countP_ite_singleton]
    simp [beq_iff_eq, hro]
  · intro r hr hpc
    simp only [List.mem_append, mem_ite_singleton] at hr
    rcases hr with ⟨h, rfl⟩ | ⟨h, rfl⟩
    · exact absurd hpc hro
    · rfl
  · intro hz1 hz2
    simp [hz1, hz2]

/-- Witness for C1 at a concrete record (rt 10, ot 2, subsistence
premium) and a concrete legacy row (rt 8, ot 0), with the default pay
codes. -/
theorem C1_expansion_lines_witness :
    ([⟨"2025-09-19", "", "123", "AB", "TC", "Y", "CC", "007", "", "211", 10, "", "Subsistence", ""⟩,
      ⟨"2025-09-19", "", "123", "AB", "TC", "Y", "CC", "007", "", "212", 2, "", "Subsistence", ""⟩,
      ⟨"2025-09-19", "", "123", "AB", "TC", "Y", "CC", "007", "", "261", 1, "", "Subsistence", ""⟩]
        : List ExportRow).countP
      (fun r => r.payCode == PaycodeMap.regCode ⟨none, none, none⟩) =
      (if (0 : Rat) < 10 then 1 else 0) ∧
    ([⟨"2025-09-19", "", "123", "AB", "TC", "Y", "CC", "007", "", "211", 10, "", "Subsistence", ""⟩,
      ⟨"2025-09-19", "", "123", "AB", "TC", "Y", "CC", "007", "", "212", 2, "", "Subsistence", ""⟩,
      ⟨"2025-09-19", "", "123", "AB", "TC", "Y", "CC", "007", "", "261", 1, "", "Subsistence", ""⟩]
        : List ExportRow).countP
      (fun r => r.payCode == PaycodeMap.otCode ⟨none, none, none⟩) =
      (if (0 : Rat) < 2 then 1 else 0) :=
  let h := C1_expansion_lines ⟨none, none, none⟩
    ⟨⟨2025, 9, 19⟩, "J1", "7", "AB", "CC", "TC", "123",
      PyVal.num 10, PyVal.num 2, "", "Subsistence", "", ""⟩
    ⟨⟨2025, 9, 19⟩, "J2", "321", "CD", "TC2", "CC2", "12",
      PyVal.num 8, PyVal.num 0, "", "note"⟩
    10 2 8 0
    [⟨"2025-09-19", "", "123", "AB", "TC", "Y", "CC", "007", "", "211", 10, "", "Subsistence", ""⟩,
     ⟨"2025-09-19", "", "123", "AB", "TC", "Y", "CC", "007", "", "212", 2, "", "Subsistence", ""⟩,
     ⟨"2025-09-19", "", "123", "AB", "TC", "Y", "CC", "007", "", "261", 1, "", "Subsistence", ""⟩]
    [⟨"2025-09-19", "", "321", "CD", "TC2", "Y", "CC2", "012", "", "211", 8, "", "", "note"⟩]
    (by decide) (by decide) (by decide) (by decide) (by decide) (by decide)
    (by decide) (by decide) (by decide)
  ⟨h.1, h.2.2.1⟩

/-- C3: for every record whose hours cells coerce, exactly one
SUBSISTENCE line, always with hours 1.0, is emitted iff the cleaned
premium value upper-cased contains SUBSIST, or equals 261, or
contains 261; an empty cleaned premium value emits none.  The third
conjunct ties the embedded test to the claim's wording literally. -/
theorem C3_subsistence_line (pm : PaycodeMap) (e : TimeEntry)
    (regH otH : Rat) (rows : List ExportRow)
    (h1 : coerceHours e.rtHours = some regH)
    (h2 : coerceHours e.otHours = some otH)
    (h3 : expandEntry pm e = some rows)
    (hrs : pm.regCode ≠ pm.subsCode)
    (hos : pm.otCode ≠ pm.subsCode) :
    (rows.countP (fun r => r.payCode == pm.subsCode) =
      if subsistSignal (_clean_blank e.premiumRate false) then 1 else 0) ∧
    (∀ r ∈ rows, r.payCode = pm.subsCode → r.hours = 1) ∧
    (∀ pv : String, subsistSignal pv =
      (strContains (pyUpper pv) "SUBSIST" || pv == "261" || strContains pv "261")) ∧
    (_clean_blank e.premiumRate false = "" →
      rows.countP (fun r => r.payCode == pm.subsCode) = 0) := by
  rw [expandEntry_eq pm e regH otH h1 h2, Option.some.injEq] at h3
  subst h3
  have hcount :
      ((if 0 < regH then [{ entryBase e with payCode := pm.regCode, hours := regH }] else []) ++
       (if 0 < otH then [{ entryBase e with payCode := pm.otCode, hours := otH }] else []) ++
       (if subsistSignal (_clean_blank e.premiumRate false) then
         [{ entryBase e with payCode := pm.subsCode, hours := 1 }] else [])).countP
        (fun r : ExportRow => r.payCode == pm.subsCode) =
      if subsistSignal (_clean_blank e.premiumRate false) then 1 else 0 := by
    rw [List.countP_append, List.countP_append,
      countP_ite_singleton, countP_ite_singleton, countP_ite_singleton]
    simp [beq_iff_eq, hrs, hos]
  refine ⟨hcount, ?_, fun pv => rfl, ?_⟩
  · intro r hr hpc
    simp only [List.mem_append, mem_ite_singleton] at hr
    rcases hr with (⟨h, rfl⟩ | ⟨h, rfl⟩) | ⟨h, rfl⟩
    · exact absurd hpc hrs
    · exact absurd hpc hos
    · rfl
  · intro hemp
    rw [hcount, hemp]
    have hfalse : subsistSignal "" = false := by decide
    simp [hfalse]

/-- Witness for C3 at concrete records: premium Subsistence emits one
SUBSISTENCE line of hours 1, premium 261 likewise, and the claim's
formula holds of the empty premium. -/
theorem C3_subsistence_line_witness :
    ([⟨"2025-09-19", "", "123", "AB", "TC", "Y", "CC", "007", "", "211", 10, "", "Subsistence", ""⟩,
      ⟨"2025-09-19", "", "123", "AB", "TC", "Y", "CC", "007", "", "212", 2, "", "Subsistence", ""⟩,
      ⟨"2025-09-19", "", "123", "AB", "TC", "Y", "CC", "007", "", "261", 1, "", "Subsistence", ""⟩]
        : List ExportRow).countP
      (fun r => r.payCode == PaycodeMap.subsCode ⟨none, none, none⟩) =
      (if subsistSignal (_clean_blank "Subsistence" false) then 1 else 0) ∧
    (∀ r ∈ ([⟨"2025-09-19", "", "123", "AB", "TC", "Y", "CC", "007", "", "211", 10, "", "Subsistence", ""⟩,
      ⟨"2025-09-19", "", "123", "AB", "TC", "Y", "CC", "007", "", "212", 2, "", "Subsistence", ""⟩,
      ⟨"2025-09-19", "", "123", "AB", "TC", "Y", "CC", "007", "", "261", 1, "", "Subsistence", ""⟩]
        : List ExportRow),
      r.payCode = PaycodeMap.subsCode ⟨none, none, none⟩ → r.hours = 1) :=
  let h := C3_subsistence_line ⟨none, none, none⟩
    ⟨⟨2025, 9, 19⟩, "J1", "7", "AB", "CC", "TC", "123",
      PyVal.num 10, PyVal.num 2, "", "Subsistence", "", ""⟩
    10 2
    [⟨"2025-09-19", "", "123", "AB", "TC", "Y", "CC", "007", "", "211", 10, "", "Subsistence", ""⟩,
     ⟨"2025-09-19", "", "123", "AB", "TC", "Y", "CC", "007", "", "212", 2, "", "Subsistence", ""⟩,
     ⟨"2025-09-19", "", "123", "AB", "TC", "Y", "CC", "007", "", "261", 1, "", "Subsistence", ""⟩]
    (by decide) (by decide) (by decide) (by decide) (by decide)
  ⟨h.1, h.2.1⟩

/-- Counterexample for C6: a record whose RT Hours cell holds the
unparseable string "abc" makes the export transform raise (the value
is truthy, so float("abc") runs and raises a ValueError, and
build_export_rows has no handler), modelled as the none result; the
claim said such a value is coerced to 0.0 and never raises. -/
theorem C6_malformed_hours_counterexample :
    coerceHours (PyVal.str "abc") = none ∧
    build_export_rows ⟨none, none, none⟩
      [⟨⟨2025, 9, 19⟩, "J1", "7", "AB", "CC", "TC", "123",
        PyVal.str "abc", PyVal.num 0, "", "", "", ""⟩] = none := by decide

/-- C6 amended: the export transform coerces falsy hours cells (None,
0, the empty string) to 0.0, but a truthy unparseable string raises
inside it; it is the ingestion path add_time_rows that coerces every
unparseable hours value to 0.0 and continues. -/
theorem C6_malformed_hours_amended (v : PyVal) (s : String) :
    coerceHours PyVal.pynone = some 0 ∧
    coerceHours (PyVal.str "") = some 0 ∧
    coerceHours (PyVal.num 0) = some 0 ∧
    (parseFloat? s = none → (PyVal.str s).truthy = true →
      coerceHours (PyVal.str s) = none) ∧
    (pyFloat v = none → normalizeHour v = 0) ∧
    (∀ q : Rat, pyFloat v = some q → normalizeHour v = q) := by
  refine ⟨by decide, by decide, by decide, ?_, ?_, ?_⟩
  · intro hp ht
    simp [coerceHours, pyOr, ht, pyFloat, hp]
  · intro hp
    simp [normalizeHour, hp]
  · intro q hq
    simp [normalizeHour, hq]

/-- Witness for C6 amended at the concrete malformed value "abc": the
transform-side coercion raises on it while the ingestion-side
normalization returns 0. -/
theorem C6_malformed_hours_amended_witness :
    (coerceHours (PyVal.str "abc") = none) ∧ (normalizeHour (PyVal.str "abc") = 0) :=
  let h := C6_malformed_hours_amended (PyVal.str "abc") "abc"
  ⟨h.2.2.2.1 (by decide) (by decide), h.2.2.2.2.1 (by decide)⟩

/-- A successful run of the app-pipeline per-job loop names its
documents exactly by its job list, in order. -/
theorem perJobLoop_fst (f : String → Option (List ExportRow)) (d : CalDate) :
    ∀ (jobs : List String) (docs : List (String × List ExportRow)),
      perJobLoop f d jobs = some docs →
      docs.map Prod.fst = jobs.map (fun job => perJobFileName d job) := by
  intro jobs
  induction jobs with
  | nil =>
      intro docs h
      simp only [perJobLoop, Option.some.injEq] at h
      subst h
      rfl
  | cons j rest ih =>
      intro docs h
      cases hf : f j with
      | none => simp [perJobLoop, hf] at h
      | some rows =>
          cases hrest : perJobLoop f d rest with
          | none => simp [perJobLoop, hf, hrest] at h
          | some acc =>
              simp only [perJobLoop, hf, hrest, Option.some.injEq] at h
              subst h
              simp [ih acc hrest]

/-- A successful run of the legacy per-job loop produces only
documents holding at least one line item. -/
theorem legacyJobLoop_nonempty (f : String → Option (List ExportRow)) (d : CalDate) :
    ∀ (jobs : List String) (docs : List (String × List ExportRow)),
      legacyJobLoop f d jobs = some docs → ∀ p ∈ docs, p.2 ≠ [] := by
  intro jobs
  induction jobs with
  | nil =>
      intro docs h
      simp only [legacyJobLoop, Option.some.injEq] at h
      subst h
      intro p hp
      exact absurd hp (List.not_mem_nil p)
  | cons j rest ih =>
      intro docs h
      cases hf : f j with
      | none => simp [legacyJobLoop, hf] at h
      | some rows =>
          cases hrest : legacyJobLoop f d rest with
          | none => simp [legacyJobLoop, hf, hrest] at h
          | some acc =>
              by_cases hemp : rows.isEmpty
              · simp only [legacyJobLoop, hf, hrest, hemp, if_true, Option.some.injEq] at h
                subst h
                exact ih acc hrest
              · simp only [legacyJobLoop, hf, hrest, hemp, Bool.false_eq_true, if_false,
                  Option.some.injEq] at h
                subst h
                intro p hp
                rcases List.mem_cons.mp hp with rfl | hp'
                · intro hnil
                  rw [show (perJobFileName d j, rows).2 = rows from rfl] at hnil
                  rw [hnil] at hemp
                  exact hemp rfl
                · exact ih acc hrest p hp'

/-- Every document a successful legacy per-job loop produces is named
by the per-job filename of one of its jobs. -/
theorem legacyJobLoop_names (f : String → Option (List ExportRow)) (d : CalDate) :
    ∀ (jobs : List String) (docs : List (String × List ExportRow)),
      legacyJobLoop f d jobs = some docs →
      ∀ p ∈ docs, ∃ job ∈ jobs, p.1 = perJobFileName d job := by
  intro jobs
  induction jobs with
  | nil =>
      intro docs h
      simp only [legacyJobLoop, Option.some.injEq] at h
      subst h
      intro p hp
      exact absurd hp (List.not_mem_nil p)
  | cons j rest ih =>
      intro docs h
      cases hf : f j with
      | none => simp [legacyJobLoop, hf] at h
      | some rows =>
          cases hrest : legacyJobLoop f d rest with
          | none => simp [legacyJobLoop, hf, hrest] at h
          | some acc =>
              by_cases hemp : rows.isEmpty
              · simp only [legacyJobLoop, hf, hrest, hemp, if_true, Option.some.injEq] at h
                subst h
                intro p hp
                obtain ⟨job, hj, hn⟩ := ih acc hrest p hp
                exact ⟨job, List.mem_cons_of_mem j hj, hn⟩
              · simp only [legacyJobLoop, hf, hrest, hemp, Bool.false_eq_true, if_false,
                  Option.some.injEq] at h
                subst h
                intro p hp
                rcases List.mem_cons.mp hp with rfl | hp'
                · exact ⟨j, List.mem_cons_self j rest, rfl⟩
                · obtain ⟨job, hj, hn⟩ := ih acc hrest p hp'
                  exact ⟨job, List.mem_cons_of_mem j hj, hn⟩

/-- C2: every per-job export document filename is exactly the export
date rendered mm-dd-yyyy, a space-hyphen-space separator, the job
number, a space-hyphen-space separator, and the literal
"Daily Time Import.xlsx" — in the app pipeline, whose filename list is
exactly the sorted job list so rendered, and in the legacy pipeline,
where every produced document is so named for one of its jobs. -/
theorem C2_per_job_filenames (pm : PaycodeMap) (d : CalDate)
    (es : List TimeEntry) (les : List LegacyEntry)
    (docs ldocs : List (String × List ExportRow))
    (h1 : export_all_jobs_for_date pm d es = some docs)
    (h2 : build_per_job_exports pm d les = some ldocs) :
    docs.map Prod.fst = (appJobs es).map (fun job =>
      renderMDY d ++ " - " ++ job ++ " - Daily Time Import.xlsx") ∧
    (∀ p ∈ ldocs, ∃ job ∈ legacyJobs les,
      p.1 = renderMDY d ++ " - " ++ job ++ " - Daily Time Import.xlsx") := by
  constructor
  · exact perJobLoop_fst _ d (appJobs es) docs h1
  · intro p hp
    exact legacyJobLoop_names _ d (legacyJobs les) ldocs h2 p hp

/-- Witness for C2 at the spec's concrete example: export date
2025-09-19 and job number 4500123 yield the filename
"09-19-2025 - 4500123 - Daily Time Import.xlsx". -/
theorem C2_per_job_filenames_witness :
    ([("09-19-2025 - 4500123 - Daily Time Import.xlsx", ([] : List ExportRow))].map Prod.fst =
      (appJobs [⟨⟨2025, 9, 19⟩, "4500123", "7", "AB", "CC", "TC", "123",
        PyVal.num 0, PyVal.num 0, "", "", "", ""⟩]).map (fun job =>
        renderMDY ⟨2025, 9, 19⟩ ++ " - " ++ job ++ " - Daily Time Import.xlsx")) ∧
    (∀ p ∈ ([] : List (String × List ExportRow)), ∃ job ∈ legacyJobs ([] : List LegacyEntry),
      p.1 = renderMDY ⟨2025, 9, 19⟩ ++ " - " ++ job ++ " - Daily Time Import.xlsx") :=
  C2_per_job_filenames ⟨none, none, none⟩ ⟨2025, 9, 19⟩ _ _ _ _ (by decide) (by decide)

/-- Counterexample for C5: in export_all_jobs_for_date a job whose
records yield zero line items still gets a document — a single record
with both hours zero and no subsistence signal produces one
header-only document for its job, where the claim says none may be
produced. -/
theorem C5_empty_group_counterexample :
    export_all_jobs_for_date ⟨none, none, none⟩ ⟨2025, 9, 19⟩
      [⟨⟨2025, 9, 19⟩, "J1", "7", "AB", "CC", "TC", "123",
        PyVal.num 0, PyVal.num 0, "", "", "", ""⟩] =
      some [("09-19-2025 - J1 - Daily Time Import.xlsx", [])] := by decide

/-- C5 amended: in the legacy build_per_job_exports pipeline a job
group producing zero line items is indeed skipped — every produced
document holds at least one line item; the export_all_jobs_for_date
pipeline instead produces one document per job present, including
header-only documents for groups with zero line items (logged as
Empty, "No matching rows; created headers only."). -/
theorem C5_empty_groups (pm : PaycodeMap) (d : CalDate)
    (les : List LegacyEntry) (ldocs : List (String × List ExportRow))
    (es : List TimeEntry) (docs : List (String × List ExportRow))
    (h1 : build_per_job_exports pm d les = some ldocs)
    (h2 : export_all_jobs_for_date pm d es = some docs) :
    (∀ p ∈ ldocs, p.2 ≠ []) ∧
    docs.length = (appJobs es).length := by
  constructor
  · exact legacyJobLoop_nonempty _ d (legacyJobs les) ldocs h1
  · have hfst := perJobLoop_fst _ d (appJobs es) docs h2
    calc docs.length = (docs.map Prod.fst).length := (List.length_map _ _).symm
    _ = ((appJobs es).map (fun job => perJobFileName d job)).length := by rw [hfst]
    _ = (appJobs es).length := List.length_map _ _

/-- Witness for C5 amended: a legacy input whose only record has zero
hours yields zero documents, while the app pipeline on the same－shaped
record yields exactly one (header-only) document for its one job. -/
theorem C5_empty_groups_witness :
    (∀ p ∈ ([] : List (String × List ExportRow)), p.2 ≠ []) ∧
    ([("09-19-2025 - J1 - Daily Time Import.xlsx", ([] : List ExportRow))]).length =
      (appJobs [⟨⟨2025, 9, 19⟩, "J1", "7", "AB", "CC", "TC", "123",
        PyVal.num 0, PyVal.num 0, "", "", "", ""⟩]).length :=
  C5_empty_groups ⟨none, none, none⟩ ⟨2025, 9, 19⟩
    [⟨⟨2025, 9, 19⟩, "J1", "321", "CD", "TC2", "CC2", "12",
      PyVal.num 0, PyVal.num 0, "", ""⟩]
    [] _ _ (by decide) (by decide)

/-- C7: determinism of the export transform — two runs over equal
inputs return equal results: the same line items with the same field
values in the same order, and the same per-job documents and
filenames.  The embedded functions are the logical content of the
pipelines; the only run-varying values in the source (the log
timestamps) lie outside the line items and filenames, so the output
is a pure function of the record set, export date and pay-code map. -/
theorem C7_deterministic (pm₁ pm₂ : PaycodeMap) (d₁ d₂ : CalDate)
    (es₁ es₂ : List TimeEntry) (les₁ les₂ : List LegacyEntry)
    (hpm : pm₁ = pm₂) (hd : d₁ = d₂) (hes : es₁ = es₂) (hles : les₁ = les₂) :
    build_export_rows pm₁ es₁ = build_export_rows pm₂ es₂ ∧
    export_all_jobs_for_date pm₁ d₁ es₁ = export_all_jobs_for_date pm₂ d₂ es₂ ∧
    build_per_job_exports pm₁ d₁ les₁ = build_per_job_exports pm₂ d₂ les₂ := by
  subst hpm
  subst hd
  subst hes
  subst hles
  exact ⟨rfl, rfl, rfl⟩

/-- Witness for C7 at concrete inputs: the two runs of each pipeline
coincide. -/
theorem C7_deterministic_witness :
    build_export_rows ⟨none, none, none⟩
        [⟨⟨2025, 9, 19⟩, "J1", "7", "AB", "CC", "TC", "123",
          PyVal.num 10, PyVal.num 2, "", "Subsistence", "", ""⟩] =
      build_export_rows ⟨none, none, none⟩
        [⟨⟨2025, 9, 19⟩, "J1", "7", "AB", "CC", "TC", "123",
          PyVal.num 10, PyVal.num 2, "", "Subsistence", "", ""⟩] ∧
    export_all_jobs_for_date ⟨none, none, none⟩ ⟨2025, 9, 19⟩
        [⟨⟨2025, 9, 19⟩, "J1", "7", "AB", "CC", "TC", "123",
          PyVal.num 10, PyVal.num 2, "", "Subsistence", "", ""⟩] =
      export_all_jobs_for_date ⟨none, none, none⟩ ⟨2025, 9, 19⟩
        [⟨⟨2025, 9, 19⟩, "J1", "7", "AB", "CC", "TC", "123",
          PyVal.num 10, PyVal.num 2, "", "Subsistence", "", ""⟩] ∧
    build_per_job_exports ⟨none, none, none⟩ ⟨2025, 9, 19⟩
        [⟨⟨2025, 9, 19⟩, "J2", "321", "CD", "TC2", "CC2", "12",
          PyVal.num 8, PyVal.num 0, "", "note"⟩] =
      build_per_job_exports ⟨none, none, none⟩ ⟨2025, 9, 19⟩
        [⟨⟨2025, 9, 19⟩, "J2", "321", "CD", "TC2", "CC2", "12",
          PyVal.num 8, PyVal.num 0, "", "note"⟩] :=
  C7_deterministic ⟨none, none, none⟩ ⟨none, none, none⟩ ⟨2025, 9, 19⟩ ⟨2025, 9, 19⟩
    _ _ _ _ rfl rfl rfl rfl
